import Mathlib

/-!
Verification of `convert_model.py` (vault-box): a script that wraps the
all-MiniLM-L6-v2 transformer with mean pooling and L2 normalization,
exports the tokenizer vocabulary to `vocab.txt`, converts the model to a
Core ML package and compiles it with `xcrun coremlcompiler`.

Shallow embedding conventions:
 - tensors of shape `[1, n]` drop the batch dimension of size 1 and become
   functions `Fin n → ℤ` (integer tensors) or `Fin n → ℝ` (float tensors);
   a hidden-state tensor of shape `[1, n, d]` becomes `Fin n → Fin d → ℝ`;
 - floating-point arithmetic is modelled over `ℝ`; the numeric literals
   `1e-9` (the clamp floor in `mean_pooling`) and `1e-12` (the `eps` of
   `torch.nn.functional.normalize`) are kept as exact rationals;
 - the transformer itself is a pretrained checkpoint loaded from the hub,
   not code of this repository: it is modelled as an arbitrary function
   from the three tensor arguments the script passes to it;
 - the orchestration in `main` is modelled as a trace of events over an
   environment of oracle results for the fallible library calls.
-/

/-- `MAX_SEQ_LENGTH = 128` (convert_model.py line 32). -/
@[reducible] def MAX_SEQ_LENGTH : ℕ := 128

/-- `OUTPUT_MODEL_NAME = "MiniLM"` (line 33). -/
def OUTPUT_MODEL_NAME : String := "MiniLM"

/-- Modelled from the spec: the hidden size of the pretrained
all-MiniLM-L6-v2 checkpoint (its `last_hidden_state` feature dimension,
hence the dimension of the produced sentence embedding) is 384. The
checkpoint itself is downloaded from the model hub and is not part of
this repository's sources; the spec and the script's docstring state the
output is a 384-dimensional embedding. -/
@[reducible] def minilmHiddenSize : ℕ := 384

/-- A transformer as the script uses it: it receives `input_ids`,
`attention_mask` (integer tensors of length `n`) and `position_ids`
(a length-`n` tensor of naturals) and produces `last_hidden_state`,
a real tensor of shape `n × d`. Opaque third-party code, hence an
arbitrary function. -/
def Transformer (n d : ℕ) : Type :=
  (Fin n → ℤ) → (Fin n → ℤ) → (Fin n → ℕ) → Fin n → Fin d → ℝ

/-- `torch.clamp(x, min=m)` on a scalar: `max x m`. -/
def clampMin (x m : ℝ) : ℝ := max x m

/-- The denominator of `mean_pooling` (line 40-42):
`torch.clamp(input_mask_expanded.sum(1), min=1e-9)`. The expanded mask
summed over the sequence dimension is, in every feature coordinate, the
sum of the (float-cast) attention-mask entries. -/
noncomputable def poolDenom {n : ℕ} (attention_mask : Fin n → ℤ) : ℝ :=
  clampMin (∑ i, ((attention_mask i : ℤ) : ℝ)) (1 / 10 ^ 9)

/-- `mean_pooling` (lines 36-42): the token embeddings are multiplied by
the float-cast expanded attention mask, summed over the sequence
dimension and divided by the clamped mask sum. -/
noncomputable def mean_pooling {n d : ℕ} (last_hidden_state : Fin n → Fin d → ℝ)
    (attention_mask : Fin n → ℤ) : Fin d → ℝ :=
  fun j => (∑ i, last_hidden_state i j * ((attention_mask i : ℤ) : ℝ)) /
    poolDenom attention_mask

/-- Euclidean norm of a real vector, `v.norm(2, dim)`. -/
noncomputable def l2norm {d : ℕ} (v : Fin d → ℝ) : ℝ :=
  Real.sqrt (∑ j, v j ^ 2)

/-- The `eps` default of `torch.nn.functional.normalize`. -/
noncomputable def normalizeEps : ℝ := 1 / 10 ^ 12

/-- `torch.nn.functional.normalize(v, p=2, dim=1)` (line 64): divide by
the L2 norm clamped below by `eps = 1e-12`. -/
noncomputable def normalizeL2 {d : ℕ} (v : Fin d → ℝ) : Fin d → ℝ :=
  fun j => v j / max (l2norm v) normalizeEps

/-- `WrappedModel` (lines 45-65): holds the transformer and the
pre-registered `position_ids` buffer. -/
structure WrappedModel (n d : ℕ) where
  transformer : Transformer n d
  position_ids : Fin n → ℕ

/-- `WrappedModel.__init__` (lines 48-55): registers
`torch.arange(max_seq_length).unsqueeze(0)` as the `position_ids`
buffer (the `unsqueeze(0)` batch dimension of size 1 is dropped, as for
all tensors in this embedding). -/
def mkWrappedModel {n d : ℕ} (transformer : Transformer n d) :
    WrappedModel n d :=
  ⟨transformer, fun i => (i : ℕ)⟩

/-- `WrappedModel.forward` (lines 57-65): call the transformer with the
inputs and the pre-registered `position_ids`, mean-pool the hidden
states with the attention mask, and L2-normalize the result. -/
noncomputable def WrappedModel.forward {n d : ℕ} (M : WrappedModel n d)
    (input_ids attention_mask : Fin n → ℤ) : Fin d → ℝ :=
  normalizeL2 (mean_pooling (M.transformer input_ids attention_mask M.position_ids) attention_mask)

/-- The model the script exports: `WrappedModel(transformer, MAX_SEQ_LENGTH)`
applied to a pair of inputs (line 74). -/
noncomputable def forwardModel {n d : ℕ} (transformer : Transformer n d)
    (input_ids attention_mask : Fin n → ℤ) : Fin d → ℝ :=
  (mkWrappedModel transformer).forward input_ids attention_mask

/-- The forward computation as claim C1 words it: weighted sum divided by
the raw (unclamped) mask sum, then L2-normalized. Written from the
spec's sentence, to be compared against `forwardModel`. -/
noncomputable def claimC1Forward {n d : ℕ} (transformer : Transformer n d)
    (input_ids attention_mask : Fin n → ℤ) : Fin d → ℝ :=
  normalizeL2 (fun j =>
    (∑ i, transformer input_ids attention_mask (fun i => (i : ℕ)) i j *
      ((attention_mask i : ℤ) : ℝ)) / (∑ i, ((attention_mask i : ℤ) : ℝ)))

/-- C10: the mean-pooling denominator is clamped to at least `1e-9`,
so the division in `mean_pooling` never divides by zero, for every
attention mask of the exported shape, the all-zero mask included. -/
theorem c10_pool_denominator_positive :
    (∀ attention_mask : Fin MAX_SEQ_LENGTH → ℤ,
        0 < poolDenom attention_mask ∧ poolDenom attention_mask ≠ 0) ∧
      poolDenom (fun _ : Fin MAX_SEQ_LENGTH => (0 : ℤ)) = 1 / 10 ^ 9 := by
  constructor
  · intro mask
    have h : (0 : ℝ) < 1 / 10 ^ 9 := by norm_num
    have h2 : (1 : ℝ) / 10 ^ 9 ≤ poolDenom mask := le_max_right _ _
    exact ⟨lt_of_lt_of_le h h2, ne_of_gt (lt_of_lt_of_le h h2)⟩
  · unfold poolDenom clampMin
    rw [Finset.sum_eq_zero fun i hi => Int.cast_zero]
    exact max_eq_right (by norm_num)

/-- C9: the wrapped model registers `position_ids` as the constant
sequence `0, 1, …, max_seq_length - 1`, and every forward call passes
exactly this buffer to the transformer, whatever the `input_ids` and
`attention_mask` are. -/
theorem c9_position_ids_constant :
    ∀ transformer : Transformer MAX_SEQ_LENGTH minilmHiddenSize,
      (mkWrappedModel transformer).position_ids =
        (fun i : Fin MAX_SEQ_LENGTH => (i : ℕ)) ∧
      ∀ input_ids attention_mask,
        forwardModel transformer input_ids attention_mask =
          normalizeL2 (mean_pooling
            (transformer input_ids attention_mask
              (mkWrappedModel transformer).position_ids)
            attention_mask) := by
  intro t
  exact ⟨rfl, fun _ _ => rfl⟩

/-- Scaling a vector by a positive denominator scales its L2 norm. -/
theorem l2norm_div_pos {d : ℕ} (v : Fin d → ℝ) (M : ℝ) (hM : 0 < M) :
    l2norm (fun j => v j / M) = l2norm v / M := by
  unfold l2norm
  have h1 : ∑ j, (v j / M) ^ 2 = (∑ j, v j ^ 2) / M ^ 2 := by
    rw [Finset.sum_div]
    simp [div_pow]
  rw [h1, Real.sqrt_div' _ (sq_nonneg M), Real.sqrt_sq hM.le]

/-- Normalizing a vector whose L2 norm is at least `eps` yields a unit
vector: the clamp `max (l2norm v) eps` reduces to `l2norm v`, and the
norm scales to `l2norm v / l2norm v = 1`. -/
theorem l2norm_normalizeL2_of_eps_le {d : ℕ} (v : Fin d → ℝ)
    (h : normalizeEps ≤ l2norm v) : l2norm (normalizeL2 v) = 1 := by
  have heps : (0 : ℝ) < normalizeEps := by norm_num [normalizeEps]
  have hpos : 0 < l2norm v := lt_of_lt_of_le heps h
  have hmax : max (l2norm v) normalizeEps = l2norm v := max_eq_left h
  have hnorm : normalizeL2 v = fun j => v j / l2norm v := by
    funext j
    rw [normalizeL2, hmax]
  rw [hnorm, l2norm_div_pos v (l2norm v) hpos, div_self (ne_of_gt hpos)]

/-- A transformer whose hidden states are all zero: an extreme point of
the space of checkpoints the script can wrap. -/
noncomputable def zeroTransformer : Transformer MAX_SEQ_LENGTH minilmHiddenSize :=
  fun _ _ _ _ _ => 0

/-- A transformer whose hidden states are all one. -/
noncomputable def oneTransformer : Transformer MAX_SEQ_LENGTH minilmHiddenSize :=
  fun _ _ _ _ _ => 1

/-- C6 (amended): the embedding produced by the wrapped model has L2 norm
exactly 1 (in real arithmetic) whenever the pooled vector's L2 norm is at
least the normalization epsilon `1e-12`; the clamp in
`torch.nn.functional.normalize` makes smaller pooled vectors (the zero
vector in particular) come out with norm below 1 instead. -/
theorem c6_unit_norm (transformer : Transformer MAX_SEQ_LENGTH minilmHiddenSize)
    (input_ids attention_mask : Fin MAX_SEQ_LENGTH → ℤ)
    (h : normalizeEps ≤ l2norm (mean_pooling
      (transformer input_ids attention_mask (fun i => (i : ℕ))) attention_mask)) :
    l2norm (forwardModel transformer input_ids attention_mask) = 1 :=
  l2norm_normalizeL2_of_eps_le _ h

/-- C6 counterexample: for the all-zero-hidden-state transformer the
pooled vector is zero, and the wrapped model's output is the zero vector,
whose L2 norm is 0, not approximately 1. The claim as stated ("for every
input the L2 norm is approximately 1") therefore does not follow from
the wrapper code for every transformer output. -/
theorem c6_zero_norm_counterexample :
    l2norm (forwardModel zeroTransformer (fun _ => 0) (fun _ => 1)) = 0 ∧
      (0 : ℝ) ≠ 1 := by
  constructor
  · have hfwd : forwardModel zeroTransformer (fun _ => 0) (fun _ => 1) =
        fun _ => (0 : ℝ) := by
      funext j
      simp [forwardModel, WrappedModel.forward, mkWrappedModel, mean_pooling,
        zeroTransformer, normalizeL2]
    rw [hfwd]
    simp [l2norm]
  · norm_num

/-- The clamped denominator of `normalize` is always positive. -/
theorem normalizeDen_pos {d : ℕ} (w : Fin d → ℝ) :
    0 < max (l2norm w) normalizeEps :=
  lt_of_lt_of_le (by norm_num [normalizeEps]) (le_max_right _ _)

/-- With all-one hidden states and the all-one mask, mean pooling gives
the all-one vector: the clamp floor is inactive and `128 / 128 = 1`. -/
theorem mean_pooling_one :
    mean_pooling (oneTransformer (fun _ => 0) (fun _ => 1) (fun i => (i : ℕ)))
      (fun _ => (1 : ℤ)) = fun _ : Fin minilmHiddenSize => (1 : ℝ) := by
  funext j
  have hsum : (∑ _i : Fin MAX_SEQ_LENGTH, ((1 : ℝ))) = 128 := by
    rw [Finset.sum_const, Finset.card_univ, Fintype.card_fin]
    norm_num [MAX_SEQ_LENGTH, nsmul_eq_mul]
  simp only [mean_pooling, poolDenom, clampMin, oneTransformer, one_mul,
    Int.cast_one]
  rw [hsum, max_eq_left (by norm_num)]
  norm_num

/-- C6 witness helper: the pooled vector at the all-one instance clears
the epsilon threshold. -/
theorem c6_eps_le_pool_one :
    normalizeEps ≤ l2norm (mean_pooling
      (oneTransformer (fun _ => 0) (fun _ => 1) (fun i => (i : ℕ)))
      (fun _ => (1 : ℤ))) := by
  rw [mean_pooling_one]
  have h384 : l2norm (fun _ : Fin minilmHiddenSize => (1 : ℝ)) =
      Real.sqrt 384 := by
    unfold l2norm
    rw [show (∑ _j : Fin minilmHiddenSize, ((1 : ℝ)) ^ 2) =
        ∑ _j : Fin minilmHiddenSize, (1 : ℝ) from by
      exact Finset.sum_congr rfl (fun _ _ => one_pow 2)]
    rw [Finset.sum_const, Finset.card_univ, Fintype.card_fin]
    norm_num [minilmHiddenSize, nsmul_eq_mul]
  rw [h384]
  have h1 : Real.sqrt 1 ≤ Real.sqrt 384 := Real.sqrt_le_sqrt (by norm_num)
  rw [Real.sqrt_one] at h1
  calc normalizeEps ≤ 1 := by norm_num [normalizeEps]
    _ ≤ Real.sqrt 384 := h1

/-- C6 witness: at the all-one transformer, zero ids and all-one mask,
the hypothesis of `c6_unit_norm` holds and the output has unit norm. -/
theorem c6_unit_norm_witness :
    l2norm (forwardModel oneTransformer (fun _ => 0) (fun _ => 1)) = 1 :=
  c6_unit_norm oneTransformer (fun _ => 0) (fun _ => 1) c6_eps_le_pool_one

/-- C1 (amended): for every input pair whose attention-mask entries are
nonnegative, the wrapped model's forward output equals the claim's
formula (weighted sum over the sequence divided by the raw mask sum,
then L2-normalized): a positive integer mask sum is at least 1, so the
`1e-9` clamp floor is inactive, and with an all-zero mask both sides
pool to the zero vector. -/
theorem c1_forward_matches_claim
    (transformer : Transformer MAX_SEQ_LENGTH minilmHiddenSize)
    (input_ids attention_mask : Fin MAX_SEQ_LENGTH → ℤ)
    (h : ∀ i, 0 ≤ attention_mask i) :
    forwardModel transformer input_ids attention_mask =
      claimC1Forward transformer input_ids attention_mask := by
  unfold forwardModel WrappedModel.forward mkWrappedModel claimC1Forward
  refine congrArg normalizeL2 ?_
  funext j
  unfold mean_pooling poolDenom clampMin
  have hT : (0 : ℤ) ≤ ∑ i, attention_mask i :=
    Finset.sum_nonneg fun i _ => h i
  rcases hT.lt_or_eq with hTpos | hTzero
  · have h1 : (1 : ℝ) ≤ ∑ i, ((attention_mask i : ℤ) : ℝ) := by
      have h1z : (1 : ℤ) ≤ ∑ i, attention_mask i := hTpos
      exact_mod_cast h1z
    rw [max_eq_left (le_trans (by norm_num) h1)]
  · have hz : ∀ i ∈ Finset.univ, attention_mask i = 0 :=
      (Finset.sum_eq_zero_iff_of_nonneg (fun i _ => h i)).mp hTzero.symm
    have hnum : ∑ i, transformer input_ids attention_mask
        (fun i => (i : ℕ)) i j * ((attention_mask i : ℤ) : ℝ) = 0 :=
      Finset.sum_eq_zero fun i hi => by rw [hz i hi]; simp
    have hden : ∑ i, ((attention_mask i : ℤ) : ℝ) = 0 :=
      Finset.sum_eq_zero fun i hi => by rw [hz i hi]; simp
    rw [hnum, hden]
    simp

/-- C1 witness: at the all-one transformer with the all-one mask, the
nonnegativity hypothesis holds and the two formulations agree. -/
theorem c1_forward_matches_claim_witness :
    forwardModel oneTransformer (fun _ => 0) (fun _ => 1) =
      claimC1Forward oneTransformer (fun _ => 0) (fun _ => 1) :=
  c1_forward_matches_claim oneTransformer (fun _ => 0) (fun _ => 1)
    (fun _ => by norm_num)

/-- A mask with a single `-1` entry: its sum is `-1`, so the `1e-9`
clamp floor is active in the code's denominator while the claim's raw
mask sum is `-1`. -/
def cexC1Mask : Fin MAX_SEQ_LENGTH → ℤ := fun i => if i = 0 then -1 else 0

/-- The float-cast sum of `cexC1Mask` is `-1`. -/
theorem cexC1Mask_sum : (∑ i, ((cexC1Mask i : ℤ) : ℝ)) = -1 := by
  have hcast : ∀ i : Fin MAX_SEQ_LENGTH,
      ((cexC1Mask i : ℤ) : ℝ) = if i = 0 then (-1 : ℝ) else 0 := by
    intro i
    by_cases hi : i = 0 <;> simp [cexC1Mask, hi]
  rw [Finset.sum_congr rfl fun i _ => hcast i]
  rw [Finset.sum_ite_eq' Finset.univ (0 : Fin MAX_SEQ_LENGTH) fun _ => (-1 : ℝ)]
  simp

/-- The weighted numerator over `cexC1Mask` with all-one hidden states
is `-1` in every feature coordinate. -/
theorem cexC1Mask_num (j : Fin minilmHiddenSize) :
    (∑ i, oneTransformer (fun _ => 0) cexC1Mask (fun i => (i : ℕ)) i j *
      ((cexC1Mask i : ℤ) : ℝ)) = -1 := by
  simpa [oneTransformer] using cexC1Mask_sum

/-- C1 counterexample: at the all-one transformer and the mask whose
sole nonzero entry is `-1`, the code and the claim's formula disagree:
the mask sum is `-1`, so the code divides by the clamp floor `1e-9`
(yielding a negative pooled entry) while the claim divides by `-1`
(yielding a positive one); after normalization the first coordinates
have opposite signs, so the vectors differ. -/
theorem c1_clamp_counterexample :
    forwardModel oneTransformer (fun _ => 0) cexC1Mask ≠
      claimC1Forward oneTransformer (fun _ => 0) cexC1Mask := by
  intro heq
  have happ := congrFun heq 0
  have hden : poolDenom cexC1Mask = 1 / 10 ^ 9 := by
    unfold poolDenom clampMin
    rw [cexC1Mask_sum]
    exact max_eq_right (by norm_num)
  have hpool : ∀ j, mean_pooling
      (oneTransformer (fun _ => 0) cexC1Mask (fun i => (i : ℕ)))
      cexC1Mask j < 0 := by
    intro j
    unfold mean_pooling
    rw [cexC1Mask_num j, hden]
    norm_num
  have hL : forwardModel oneTransformer (fun _ => 0) cexC1Mask 0 < 0 := by
    have hdef : forwardModel oneTransformer (fun _ => 0) cexC1Mask 0 =
        mean_pooling
          (oneTransformer (fun _ => 0) cexC1Mask (fun i => (i : ℕ)))
          cexC1Mask 0 /
        max (l2norm (mean_pooling
          (oneTransformer (fun _ => 0) cexC1Mask (fun i => (i : ℕ)))
          cexC1Mask)) normalizeEps := rfl
    rw [hdef]
    exact div_neg_of_neg_of_pos (hpool 0) (normalizeDen_pos _)
  have hR : 0 < claimC1Forward oneTransformer (fun _ => 0) cexC1Mask 0 := by
    have hdef : claimC1Forward oneTransformer (fun _ => 0) cexC1Mask 0 =
        (∑ i, oneTransformer (fun _ => 0) cexC1Mask (fun i => (i : ℕ)) i 0 *
          ((cexC1Mask i : ℤ) : ℝ)) / (∑ i, ((cexC1Mask i : ℤ) : ℝ)) /
        max (l2norm (fun j =>
          (∑ i, oneTransformer (fun _ => 0) cexC1Mask (fun i => (i : ℕ)) i j *
            ((cexC1Mask i : ℤ) : ℝ)) / (∑ i, ((cexC1Mask i : ℤ) : ℝ))))
          normalizeEps := rfl
    rw [hdef, cexC1Mask_num 0, cexC1Mask_sum]
    rw [show ((-1 : ℝ) / (-1 : ℝ)) = 1 from by norm_num]
    exact div_pos one_pos (normalizeDen_pos _)
  exact absurd happ (ne_of_lt (lt_trans hL hR))

/-- `sorted(vocab.items(), key=lambda x: x[1])` (line 80): the vocabulary
entries sorted by ascending id. Python's `sorted` is a stable ascending
sort by the key; `insertionSort` with `≤` on the id is also stable. -/
def sortVocab (v : List (String × ℤ)) : List (String × ℤ) :=
  v.insertionSort (fun a b => a.2 ≤ b.2)

/-- The character stream written to `vocab.txt` by the loop on
lines 81-83: for each entry of the sorted vocabulary, the token's
characters followed by a newline. -/
def vocabChars : List (String × ℤ) → List Char
  | [] => []
  | p :: rest => p.1.data ++ '\n' :: vocabChars rest

/-- The full content of `vocab.txt` produced from a vocabulary `v`
(lines 77-84): write the entries of `v` sorted by id. -/
def exportVocab (v : List (String × ℤ)) : List Char :=
  vocabChars (sortVocab v)

/-- Split a character stream at newline characters (the last chunk is
the unterminated remainder). -/
def splitNl : List Char → List (List Char)
  | [] => [[]]
  | c :: cs =>
    if c = '\n' then [] :: splitNl cs
    else
      match splitNl cs with
      | [] => [[c]]
      | l :: ls => (c :: l) :: ls

/-- The lines of a character stream: the newline-terminated chunks
(the unterminated remainder after the last newline is not a line, and
a stream ending in a newline has no empty phantom line). -/
def linesOf (s : List Char) : List (List Char) :=
  (splitNl s).dropLast

theorem splitNl_append (t s : List Char) (h : '\n' ∉ t) :
    splitNl (t ++ '\n' :: s) = t :: splitNl s := by
  induction t with
  | nil => simp [splitNl]
  | cons c t ih =>
    have hc : c ≠ '\n' := fun h1 => h (h1 ▸ List.mem_cons_self c t)
    have ht : '\n' ∉ t := fun h1 => h (List.mem_cons_of_mem c h1)
    simp [splitNl, hc, ih ht]

theorem splitNl_vocabChars (l : List (String × ℤ))
    (h : ∀ p ∈ l, '\n' ∉ p.1.data) :
    splitNl (vocabChars l) = l.map (fun p => p.1.data) ++ [[]] := by
  induction l with
  | nil => simp [vocabChars, splitNl]
  | cons p rest ih =>
    rw [vocabChars, splitNl_append _ _ (h p (List.mem_cons_self p rest)),
      ih fun q hq => h q (List.mem_cons_of_mem p hq)]
    simp

theorem linesOf_vocabChars (l : List (String × ℤ))
    (h : ∀ p ∈ l, '\n' ∉ p.1.data) :
    linesOf (vocabChars l) = l.map (fun p => p.1.data) := by
  rw [linesOf, splitNl_vocabChars l h, List.dropLast_concat]

instance : IsTotal (String × ℤ) (fun a b => a.2 ≤ b.2) :=
  ⟨fun a b => le_total a.2 b.2⟩

instance : IsTrans (String × ℤ) (fun a b => a.2 ≤ b.2) :=
  ⟨fun _ _ _ h1 h2 => le_trans h1 h2⟩

instance : IsAntisymm (String × ℤ) (fun a b => a.2 < b.2) :=
  ⟨fun _ _ h1 h2 => absurd (lt_trans h1 h2) (lt_irrefl _)⟩

theorem sortVocab_perm (v : List (String × ℤ)) : (sortVocab v).Perm v :=
  List.perm_insertionSort _ v

theorem sortVocab_sorted (v : List (String × ℤ)) :
    (sortVocab v).Pairwise (fun a b => a.2 ≤ b.2) :=
  List.sorted_insertionSort _ v

/-- With id-unique entries, the sorted vocabulary is strictly ascending
in the ids. -/
theorem sortVocab_strict (v : List (String × ℤ))
    (h : (v.map Prod.snd).Nodup) :
    (sortVocab v).Pairwise (fun a b => a.2 < b.2) := by
  have hnd : ((sortVocab v).map Prod.snd).Nodup :=
    ((sortVocab_perm v).map Prod.snd).nodup_iff.mpr h
  have hne : (sortVocab v).Pairwise (fun a b => a.2 ≠ b.2) :=
    List.pairwise_map.mp hnd
  exact ((sortVocab_sorted v).and hne).imp fun hab =>
    lt_of_le_of_ne hab.1 hab.2

/-- C2 (amended): for every id-unique vocabulary whose tokens contain no
newline character, `vocab.txt` has exactly one line per entry — the
lines are the tokens of the id-sorted vocabulary, the line count equals
the vocabulary size, and the order is strictly ascending in the ids. -/
theorem c2_vocab_lines (v : List (String × ℤ))
    (hids : (v.map Prod.snd).Nodup)
    (hnl : ∀ p ∈ v, '\n' ∉ p.1.data) :
    linesOf (exportVocab v) = (sortVocab v).map (fun p => p.1.data) ∧
      (linesOf (exportVocab v)).length = v.length ∧
      (sortVocab v).Perm v ∧
      (sortVocab v).Pairwise (fun a b => a.2 < b.2) := by
  have hnl' : ∀ p ∈ sortVocab v, '\n' ∉ p.1.data :=
    fun p hp => hnl p ((sortVocab_perm v).mem_iff.mp hp)
  have hlines : linesOf (exportVocab v) =
      (sortVocab v).map (fun p => p.1.data) :=
    linesOf_vocabChars (sortVocab v) hnl'
  refine ⟨hlines, ?_, sortVocab_perm v, sortVocab_strict v hids⟩
  rw [hlines, List.length_map]
  exact (sortVocab_perm v).length_eq

/-- C2 witness: a two-entry vocabulary given in descending id order is
written as two lines in ascending id order. -/
theorem c2_vocab_lines_witness :
    linesOf (exportVocab [("b", (1 : ℤ)), ("a", 0)]) =
      (sortVocab [("b", (1 : ℤ)), ("a", 0)]).map (fun p => p.1.data) ∧
      (linesOf (exportVocab [("b", (1 : ℤ)), ("a", 0)])).length =
        ([("b", (1 : ℤ)), ("a", 0)] : List (String × ℤ)).length ∧
      (sortVocab [("b", (1 : ℤ)), ("a", 0)]).Perm [("b", (1 : ℤ)), ("a", 0)] ∧
      (sortVocab [("b", (1 : ℤ)), ("a", 0)]).Pairwise (fun a b => a.2 < b.2) :=
  c2_vocab_lines [("b", (1 : ℤ)), ("a", 0)] (by decide) (by decide)

/-- C2 counterexample: a token containing a newline character breaks the
one-line-per-entry invariant — a singleton vocabulary with token `a\nb`
produces a two-line file, so the line count differs from the vocabulary
size. -/
theorem c2_newline_counterexample :
    (linesOf (exportVocab [("a\nb", (0 : ℤ))])).length ≠
      ([("a\nb", (0 : ℤ))] : List (String × ℤ)).length := by
  decide

/-- C5: the vocabulary export is deterministic — two enumerations of the
same id-unique token-to-id mapping (permutations of one another, as two
runs of a dict enumeration are) produce byte-identical `vocab.txt`
contents. -/
theorem c5_export_deterministic (v1 v2 : List (String × ℤ))
    (hperm : v1.Perm v2) (hids : (v1.map Prod.snd).Nodup) :
    exportVocab v1 = exportVocab v2 := by
  have hids2 : (v2.map Prod.snd).Nodup :=
    ((hperm.map Prod.snd).nodup_iff).mp hids
  have hsort : sortVocab v1 = sortVocab v2 :=
    List.eq_of_perm_of_sorted
      ((sortVocab_perm v1).trans (hperm.trans (sortVocab_perm v2).symm))
      (sortVocab_strict v1 hids) (sortVocab_strict v2 hids2)
  rw [exportVocab, exportVocab, hsort]

/-- C5 witness: two opposite enumerations of the same two-entry mapping
yield the same file bytes. -/
theorem c5_export_deterministic_witness :
    exportVocab [("a", (0 : ℤ)), ("b", 1)] =
      exportVocab [("b", (1 : ℤ)), ("a", 0)] :=
  c5_export_deterministic _ _ (by decide) (by decide)

/-- The observable actions of `main` (lines 68-134), in the order the
script performs them. Print events carry the data interpolated into the
message (the formatted strings themselves are not modelled). -/
inductive Event where
  | printLoading : Event
  | writeVocabFile : List Char → Event
  | printExportedVocab : ℕ → Event
  | printExportingGraph : Event
  | printConverting : Event
  | saveMLPackage : Event
  | printSavedPackage : Event
  | printCompiling : Event
  | removeTree : String → Event
  | runCompiler : Event
  | printCompiledSuccess : Event
  | printFallback : ℤ → Event
  | printDone : Event
  | printArtifact : String → Event
  | printVocabPath : Event
deriving DecidableEq

/-- The environment `main` runs in: the outcome of each fallible
third-party library call (an uncaught Python exception is modelled as
`Except.error` carrying the library's message), the exit code of the
`xcrun` subprocess, and whether the compiled bundle directory exists
before the removal check and after the compiler ran. -/
structure MainEnv where
  tokenizerRes : Except String (List (String × ℤ))
  modelRes : Except String Unit
  writeVocabRes : Except String Unit
  exportRes : Except String Unit
  convertRes : Except String Unit
  saveRes : Except String Unit
  compilerExit : ℤ
  bundleExistsBefore : Bool
  bundleExistsAfter : Bool

/-- The event trace of a run of `main` in which every library call
succeeded, for the tokenizer vocabulary `vocab` (lines 69-134). -/
def mainTrace (env : MainEnv) (vocab : List (String × ℤ)) : List Event :=
  [Event.printLoading,
   Event.writeVocabFile (exportVocab vocab),
   Event.printExportedVocab (sortVocab vocab).length,
   Event.printExportingGraph,
   Event.printConverting,
   Event.saveMLPackage,
   Event.printSavedPackage,
   Event.printCompiling] ++
  (if env.bundleExistsBefore then
    [Event.removeTree (OUTPUT_MODEL_NAME ++ ".mlmodelc")]
  else []) ++
  [Event.runCompiler] ++
  (if env.compilerExit = 0 ∧ env.bundleExistsAfter = true then
    [Event.printCompiledSuccess]
  else
    [Event.printFallback env.compilerExit]) ++
  [Event.printDone,
   Event.printArtifact (if env.bundleExistsAfter then
     OUTPUT_MODEL_NAME ++ ".mlmodelc"
   else OUTPUT_MODEL_NAME ++ ".mlpackage"),
   Event.printVocabPath]

/-- `main` (lines 68-134): sequential orchestration. Each library call
either succeeds or raises; a raise anywhere before the compiler step
aborts the run with that error (the script has no try/except). The
compiler invocation itself cannot abort the run: its exit code is only
branched on. -/
def mainRun (env : MainEnv) : Except String (List Event) :=
  match env.tokenizerRes with
  | .error e => .error e
  | .ok vocab =>
  match env.modelRes with
  | .error e => .error e
  | .ok _ =>
  match env.writeVocabRes with
  | .error e => .error e
  | .ok _ =>
  match env.exportRes with
  | .error e => .error e
  | .ok _ =>
  match env.convertRes with
  | .error e => .error e
  | .ok _ =>
  match env.saveRes with
  | .error e => .error e
  | .ok _ => .ok (mainTrace env vocab)

/-- Recognizes directory-removal events. -/
def isRemoveEvent : Event → Bool := fun e =>
  match e with
  | .removeTree _ => true
  | _ => false

/-- C3: when every library step succeeds, the run reaches normal
termination whatever the compiler's exit code and whether or not the
bundle directory appeared: a zero exit code together with an existing
bundle prints the success message, any other combination prints the
fallback instruction instead, and in both cases the script continues to
its final prints rather than aborting. -/
theorem c3_compile_failure_tolerated (env : MainEnv)
    (htok : ∃ vocab, env.tokenizerRes = Except.ok vocab)
    (hm : env.modelRes = Except.ok ())
    (hw : env.writeVocabRes = Except.ok ())
    (he : env.exportRes = Except.ok ())
    (hc : env.convertRes = Except.ok ())
    (hs : env.saveRes = Except.ok ()) :
    ∃ tr, mainRun env = Except.ok tr ∧
      ((env.compilerExit = 0 ∧ env.bundleExistsAfter = true) →
        Event.printCompiledSuccess ∈ tr ∧
          ∀ c, Event.printFallback c ∉ tr) ∧
      (¬(env.compilerExit = 0 ∧ env.bundleExistsAfter = true) →
        Event.printFallback env.compilerExit ∈ tr ∧
          Event.printCompiledSuccess ∉ tr) := by
  obtain ⟨vocab, htok⟩ := htok
  refine ⟨mainTrace env vocab, ?_, ?_, ?_⟩
  · simp only [mainRun, htok, hm, hw, he, hc, hs]
  · intro hcond
    constructor
    · cases hb : env.bundleExistsBefore <;>
        simp [mainTrace, hb, hcond.1, hcond.2]
    · intro c
      cases hb : env.bundleExistsBefore <;>
        simp [mainTrace, hb, hcond.1, hcond.2]
  · intro hcond
    constructor <;> cases hb : env.bundleExistsBefore <;>
      simp [mainTrace, hb, if_neg hcond]

/-- A successful environment for the C3 witness: all library calls
succeed, the compiler exits with code 1 and no bundle appears. -/
def envC3 : MainEnv :=
  ⟨Except.ok [("a", 0)], Except.ok (), Except.ok (), Except.ok (),
   Except.ok (), Except.ok (), 1, true, false⟩

/-- C3 witness: with compiler exit code 1 and no bundle, the run still
terminates normally and prints the fallback instruction. -/
theorem c3_compile_failure_tolerated_witness :
    ∃ tr, mainRun envC3 = Except.ok tr ∧
      ((envC3.compilerExit = 0 ∧ envC3.bundleExistsAfter = true) →
        Event.printCompiledSuccess ∈ tr ∧
          ∀ c, Event.printFallback c ∉ tr) ∧
      (¬(envC3.compilerExit = 0 ∧ envC3.bundleExistsAfter = true) →
        Event.printFallback envC3.compilerExit ∈ tr ∧
          Event.printCompiledSuccess ∉ tr) :=
  c3_compile_failure_tolerated envC3 ⟨[("a", 0)], rfl⟩ rfl rfl rfl rfl rfl

/-- C7: when every library step succeeds, the only removal the run ever
performs is of `MiniLM.mlmodelc`, and exactly when that directory
already existed; the compiler is invoked afterwards to regenerate it. -/
theorem c7_remove_bundle_iff_exists (env : MainEnv)
    (htok : ∃ vocab, env.tokenizerRes = Except.ok vocab)
    (hm : env.modelRes = Except.ok ())
    (hw : env.writeVocabRes = Except.ok ())
    (he : env.exportRes = Except.ok ())
    (hc : env.convertRes = Except.ok ())
    (hs : env.saveRes = Except.ok ()) :
    ∃ tr, mainRun env = Except.ok tr ∧
      tr.filter isRemoveEvent =
        (if env.bundleExistsBefore then
          [Event.removeTree (OUTPUT_MODEL_NAME ++ ".mlmodelc")]
        else []) ∧
      Event.runCompiler ∈ tr := by
  obtain ⟨vocab, htok⟩ := htok
  refine ⟨mainTrace env vocab, ?_, ?_, ?_⟩
  · simp only [mainRun, htok, hm, hw, he, hc, hs]
  · by_cases hcond : env.compilerExit = 0 ∧ env.bundleExistsAfter = true <;>
      cases hb : env.bundleExistsBefore <;>
      simp [mainTrace, hb, hcond, isRemoveEvent]
  · by_cases hcond : env.compilerExit = 0 ∧ env.bundleExistsAfter = true <;>
      cases hb : env.bundleExistsBefore <;>
      simp [mainTrace, hb, hcond]

/-- An environment for the C7 witness: the bundle directory already
exists before compilation. -/
def envC7 : MainEnv :=
  ⟨Except.ok [("a", 0)], Except.ok (), Except.ok (), Except.ok (),
   Except.ok (), Except.ok (), 0, true, true⟩

/-- C7 witness: with a pre-existing bundle, the removal list is exactly
the one `MiniLM.mlmodelc` removal and the compiler still runs. -/
theorem c7_remove_bundle_iff_exists_witness :
    ∃ tr, mainRun envC7 = Except.ok tr ∧
      tr.filter isRemoveEvent =
        (if envC7.bundleExistsBefore then
          [Event.removeTree (OUTPUT_MODEL_NAME ++ ".mlmodelc")]
        else []) ∧
      Event.runCompiler ∈ tr :=
  c7_remove_bundle_iff_exists envC7 ⟨[("a", 0)], rfl⟩ rfl rfl rfl rfl rfl

/-- C8: a failure in any step before the compiler invocation — model or
tokenizer loading, the vocabulary write, the graph export, the Core ML
conversion, or the package save — propagates uncaught: the run aborts
with exactly the library's error, and no later step runs. -/
theorem c8_failures_propagate (env : MainEnv) (e : String)
    (h : env.tokenizerRes = Except.error e
      ∨ ((∃ v, env.tokenizerRes = Except.ok v) ∧
          env.modelRes = Except.error e)
      ∨ ((∃ v, env.tokenizerRes = Except.ok v) ∧
          env.modelRes = Except.ok () ∧
          env.writeVocabRes = Except.error e)
      ∨ ((∃ v, env.tokenizerRes = Except.ok v) ∧
          env.modelRes = Except.ok () ∧
          env.writeVocabRes = Except.ok () ∧
          env.exportRes = Except.error e)
      ∨ ((∃ v, env.tokenizerRes = Except.ok v) ∧
          env.modelRes = Except.ok () ∧
          env.writeVocabRes = Except.ok () ∧
          env.exportRes = Except.ok () ∧
          env.convertRes = Except.error e)
      ∨ ((∃ v, env.tokenizerRes = Except.ok v) ∧
          env.modelRes = Except.ok () ∧
          env.writeVocabRes = Except.ok () ∧
          env.exportRes = Except.ok () ∧
          env.convertRes = Except.ok () ∧
          env.saveRes = Except.error e)) :
    mainRun env = Except.error e := by
  rcases h with h1
    | ⟨⟨v, h1⟩, h2⟩
    | ⟨⟨v, h1⟩, h2, h3⟩
    | ⟨⟨v, h1⟩, h2, h3, h4⟩
    | ⟨⟨v, h1⟩, h2, h3, h4, h5⟩
    | ⟨⟨v, h1⟩, h2, h3, h4, h5, h6⟩
  · simp only [mainRun, h1]
  · simp only [mainRun, h1, h2]
  · simp only [mainRun, h1, h2, h3]
  · simp only [mainRun, h1, h2, h3, h4]
  · simp only [mainRun, h1, h2, h3, h4, h5]
  · simp only [mainRun, h1, h2, h3, h4, h5, h6]

/-- An environment for the C8 witness: the transformer download fails. -/
def envC8 : MainEnv :=
  ⟨Except.ok [("a", 0)], Except.error "load failed", Except.ok (),
   Except.ok (), Except.ok (), Except.ok (), 0, false, true⟩

/-- C8 witness: the model-loading failure aborts the run with the
library's own error message. -/
theorem c8_failures_propagate_witness :
    mainRun envC8 = Except.error "load failed" :=
  c8_failures_propagate envC8 "load failed"
    (Or.inr (Or.inl ⟨⟨[("a", 0)], rfl⟩, rfl⟩))

/-- The tensor dtypes appearing in the `ct.convert` call. -/
inductive CTDType where
  | int32 : CTDType
  | float32 : CTDType
deriving DecidableEq

/-- A declared tensor of the converted model: name, shape and dtype, as
passed to `ct.TensorType`. -/
structure TensorSpec where
  name : String
  shape : List ℕ
  dtype : CTDType
deriving DecidableEq

/-- The `inputs` list of the `ct.convert` call (lines 99-102): both
input tensors are declared with the constant shape `(1, MAX_SEQ_LENGTH)`
and dtype `np.int32`. -/
def convertInputs : List TensorSpec :=
  [⟨"input_ids", [1, MAX_SEQ_LENGTH], CTDType.int32⟩,
   ⟨"attention_mask", [1, MAX_SEQ_LENGTH], CTDType.int32⟩]

/-- The `outputs` list of the `ct.convert` call (lines 103-105): the
single named output tensor. -/
def convertOutputNames : List String := ["embeddings"]

/-- C4: the converted model declares exactly two inputs, `input_ids`
and `attention_mask`, both integer tensors of the constant shape
`[1, 128]` (`MAX_SEQ_LENGTH = 128` is a literal in the script, not a
runtime parameter), and a single output, the embedding vector whose
dimension is the transformer's hidden size 384 (the codomain index type
of `forwardModel` at `minilmHiddenSize`). -/
theorem c4_converted_model_interface :
    convertInputs =
      [⟨"input_ids", [1, 128], CTDType.int32⟩,
       ⟨"attention_mask", [1, 128], CTDType.int32⟩] ∧
    convertInputs.length = 2 ∧
    convertOutputNames = ["embeddings"] ∧
    convertOutputNames.length = 1 ∧
    MAX_SEQ_LENGTH = 128 ∧
    minilmHiddenSize = 384 :=
  ⟨rfl, rfl, rfl, rfl, rfl, rfl⟩
